import Mathlib

/-!
Shallow embedding of the New Relic GraphQL extraction script
(src/script.py) and proofs about its join stages, pagination loops,
HTTP wrapper and CSV serialization.

Conventions of the embedding:
* JSON string fields become Lean String; numeric fields that the script
  only ever interpolates into text (term thresholds) are modelled by the
  text they render to.
* Python dict comprehensions used as lookup tables (last write wins on
  duplicate keys) are modelled by pyDictGet, which scans the list from
  the end.
* Python loops that append to a result list become structural recursion
  producing the same list.
* The Python csv module (DictWriter / DictReader with the default excel
  dialect) and the text-mode universal-newline translation performed by
  the read in generate_workflows_with_channels are modelled explicitly
  on List Char.
-/

namespace NRScript

/-- Last-write-wins lookup table built from a list, as in the Python
dict comprehensions of script.py: later entries shadow earlier ones. -/
def pyDictGet {α : Type} (key : α → String) (xs : List α) (k : String) : Option α :=
  xs.reverse.find? (fun x => key x == k)

/-- Alert policy entity as consumed by script.py (id, name,
incidentPreference). -/
structure Policy where
  id : String
  name : String
  incidentPreference : String
  deriving DecidableEq, Repr

/-- One entry of an NRQL condition's terms list; the script only
interpolates these fields into a format string, so they are modelled by
their rendered text. -/
structure Term where
  operator : String
  priority : String
  threshold : String
  thresholdDuration : String
  thresholdOccurrences : String
  deriving DecidableEq, Repr

/-- NRQL condition entity as consumed by script.py. -/
structure NrqlCondition where
  policyId : String
  id : String
  type : String
  name : String
  nrqlQuery : String
  terms : List Term
  deriving DecidableEq, Repr

/-- Output row of Join Stage A (get_alert_policies_and_conditions,
lines 100-126 of src/script.py). -/
structure PolicyConditionRow where
  alert_policy_name : String
  alert_policy_id : String
  nrql_condition_id : String
  alert_condition_name : String
  nrql_query : String
  nrql_condition : String
  deriving DecidableEq, Repr

/-- Format string applied to each term in get_alert_policies_and_conditions
(lines 117-120 of src/script.py). -/
def formatTerm (t : Term) : String :=
  "operator: " ++ t.operator ++ ", priority: " ++ t.priority ++
  ", threshold: " ++ t.threshold ++ ", duration: " ++ t.thresholdDuration ++
  ", occurrences: " ++ t.thresholdOccurrences

/-- Join Stage A: the mapping loop of get_alert_policies_and_conditions
(lines 100-126 of src/script.py).  For each condition, look up its
policyId in the policy table; on a hit emit one row whose nrql_condition
field joins the formatted terms with a semicolon separator; on a miss
emit nothing. -/
def get_alert_policies_and_conditions (policies : List Policy)
    (nrql_conditions : List NrqlCondition) : List PolicyConditionRow :=
  match nrql_conditions with
  | [] => []
  | condition :: rest =>
    match pyDictGet Policy.id policies condition.policyId with
    | some policy =>
      { alert_policy_name := policy.name
        alert_policy_id := policy.id
        nrql_condition_id := condition.id
        alert_condition_name := condition.name
        nrql_query := condition.nrqlQuery
        nrql_condition := String.intercalate "; " (condition.terms.map formatTerm) }
        :: get_alert_policies_and_conditions policies rest
    | none => get_alert_policies_and_conditions policies rest

/-- One destinationConfigurations entry of a workflow; the script reads
only channelId (line 188 of src/script.py). -/
structure DestinationConfig where
  channelId : String
  name : String
  notificationTriggers : List String
  type : String
  updateOriginalMessage : Bool
  deriving DecidableEq, Repr

/-- One issuesFilter predicate of a workflow; the Lean field attr
models the JSON field named attribute (a Lean keyword). -/
structure Predicate where
  attr : String
  operator : String
  values : List String
  deriving DecidableEq, Repr

/-- The issuesFilter object of a workflow. -/
structure IssuesFilter where
  predicates : List Predicate
  deriving DecidableEq, Repr

/-- Workflow entity as consumed by script.py; issuesFilter is optional
(the script guards on its presence and truthiness, line 192). -/
structure Workflow where
  id : String
  name : String
  destinationConfigurations : List DestinationConfig
  issuesFilter : Option IssuesFilter
  deriving DecidableEq, Repr

/-- Output row of Join Stage B (process_workflows).  The Lean field
attr_accumulations_policyName models the Python dict key
"attribute.accumulations.policyName", and attr_labels_policyIds models
"attribute.labels.policyIds"; policy_operator and policy_values model
"policy.operator" and "policy.values". -/
structure WorkflowAlertRow where
  workflow_name : String
  workflow_id : String
  destination_channel_ids : String
  alert_policy_name : Option String
  alert_policy_id : Option String
  nrql_condition_id : Option String
  alert_condition_name : Option String
  nrql_query : Option String
  nrql_condition : Option String
  attr_accumulations_policyName : Option (List String)
  attr_labels_policyIds : Option String
  policy_operator : String
  policy_values : List String
  deriving DecidableEq, Repr

/-- Inner loop of process_workflows for a labels.policyIds predicate
(lines 197-224 of src/script.py): one row per predicate value that is a
key of the alert-policy table, in value order. -/
def labelsPolicyIdsRows (alert_policies : List PolicyConditionRow)
    (wname wid dci op : String) (vals : List String) :
    List String → List WorkflowAlertRow
  | [] => []
  | policy_id :: rest =>
    match pyDictGet PolicyConditionRow.alert_policy_id alert_policies policy_id with
    | some alert_policy =>
      { workflow_name := wname
        workflow_id := wid
        destination_channel_ids := dci
        alert_policy_name := some alert_policy.alert_policy_name
        alert_policy_id := some alert_policy.alert_policy_id
        nrql_condition_id := some alert_policy.nrql_condition_id
        alert_condition_name := some alert_policy.alert_condition_name
        nrql_query := some alert_policy.nrql_query
        nrql_condition := some alert_policy.nrql_condition
        attr_accumulations_policyName := none
        attr_labels_policyIds := some policy_id
        policy_operator := op
        policy_values := vals }
        :: labelsPolicyIdsRows alert_policies wname wid dci op vals rest
    | none => labelsPolicyIdsRows alert_policies wname wid dci op vals rest

/-- Predicate dispatch of process_workflows (lines 193-245 of
src/script.py): labels.policyIds predicates expand per matched value,
accumulations.policyName predicates emit one null-policy row, all other
attributes emit nothing. -/
def predicateRows (alert_policies : List PolicyConditionRow)
    (wname wid dci : String) : List Predicate → List WorkflowAlertRow
  | [] => []
  | p :: rest =>
    (if p.attr = "labels.policyIds" then
      labelsPolicyIdsRows alert_policies wname wid dci p.operator p.values p.values
    else if p.attr = "accumulations.policyName" then
      [{ workflow_name := wname
         workflow_id := wid
         destination_channel_ids := dci
         alert_policy_name := none
         alert_policy_id := none
         nrql_condition_id := none
         alert_condition_name := none
         nrql_query := none
         nrql_condition := none
         attr_accumulations_policyName := some p.values
         attr_labels_policyIds := none
         policy_operator := p.operator
         policy_values := p.values }]
    else [])
    ++ predicateRows alert_policies wname wid dci rest

/-- Join Stage B: process_workflows (lines 175-247 of src/script.py).
Per workflow, destination_channel_ids is the comma-space join of the
channelId of every destination configuration; workflows without an
issues filter contribute nothing. -/
def process_workflows (workflows : List Workflow)
    (alert_policies : List PolicyConditionRow) : List WorkflowAlertRow :=
  match workflows with
  | [] => []
  | w :: rest =>
    (match w.issuesFilter with
     | none => []
     | some f =>
       predicateRows alert_policies w.name w.id
         (String.intercalate ", " (w.destinationConfigurations.map DestinationConfig.channelId))
         f.predicates)
    ++ process_workflows rest alert_policies

/-- Channel entity as consumed by script.py. -/
structure Channel where
  id : String
  name : String
  type : String
  destinationId : String
  product : String
  deriving DecidableEq, Repr

/-- One property of a destination. -/
structure DProperty where
  key : String
  value : String
  deriving DecidableEq, Repr

/-- Destination entity as consumed by script.py. -/
structure Destination where
  properties : List DProperty
  id : String
  name : String
  deriving DecidableEq, Repr

/-- Output row of Join Stage C (map_channels_to_destinations). -/
structure ChannelDestRow where
  channel_id : String
  channel_name : String
  channel_type : String
  destination_id : String
  destination_key : Option String
  destination_value : Option String
  deriving DecidableEq, Repr

/-- Join Stage C: map_channels_to_destinations (lines 316-374 of
src/script.py).  On a destination hit, one row per property whose key is
email or url; if no property qualifies, or the destination is unknown,
one row with null key and value. -/
def map_channels_to_destinations (channels : List Channel)
    (destinations : List Destination) : List ChannelDestRow :=
  match channels with
  | [] => []
  | channel :: rest =>
    (match pyDictGet Destination.id destinations channel.destinationId with
     | some destination =>
       let filtered_properties :=
         destination.properties.filter (fun pr => pr.key == "email" || pr.key == "url")
       if filtered_properties.isEmpty then
         [{ channel_id := channel.id
            channel_name := channel.name
            channel_type := channel.type
            destination_id := channel.destinationId
            destination_key := none
            destination_value := none }]
       else
         filtered_properties.map (fun pr =>
           { channel_id := channel.id
             channel_name := channel.name
             channel_type := channel.type
             destination_id := channel.destinationId
             destination_key := some pr.key
             destination_value := some pr.value })
     | none =>
       [{ channel_id := channel.id
          channel_name := channel.name
          channel_type := channel.type
          destination_id := channel.destinationId
          destination_key := none
          destination_value := none }])
    ++ map_channels_to_destinations rest destinations

/-- One row of workflows_with_alert_policies.csv as read back by
csv.DictReader in generate_workflows_with_channels: every field is
text. -/
structure WorkflowCsvRow where
  workflow_name : String
  workflow_id : String
  destination_channel_ids : String
  alert_policy_name : String
  alert_policy_id : String
  nrql_condition_id : String
  alert_condition_name : String
  nrql_query : String
  nrql_condition : String
  attr_accumulations_policyName : String
  attr_labels_policyIds : String
  policy_operator : String
  policy_values : String
  deriving DecidableEq, Repr

/-- One row of channels_and_destinations.csv as read back by
csv.DictReader: every field is text. -/
structure ChannelCsvRow where
  channel_id : String
  channel_name : String
  channel_type : String
  destination_id : String
  destination_key : String
  destination_value : String
  deriving DecidableEq, Repr

/-- Output row of Join Stage D (map_workflows_with_channels): workflow
fields are carried over as text, channel and destination fields are
null on a lookup miss. -/
structure WorkflowChannelRow where
  workflow_name : String
  workflow_id : String
  destination_channel_ids : String
  alert_policy_name : String
  alert_policy_id : String
  nrql_condition_id : String
  alert_condition_name : String
  nrql_query : String
  nrql_condition : String
  attr_accumulations_policyName : String
  attr_labels_policyIds : String
  policy_operator : String
  policy_values : String
  channel_id : String
  destination_channel_name : Option String
  destination_channel_type : Option String
  destination_id : Option String
  destination_key : Option String
  destination_value : Option String
  deriving DecidableEq, Repr

/-- Python str.split with separator comma-space, as used on
destination_channel_ids (line 430 of src/script.py): non-overlapping
occurrences split left to right; the empty string splits to a single
empty field. -/
def splitCommaSpace : List Char → List (List Char)
  | [] => [[]]
  | [c] => [[c]]
  | c :: c2 :: r2 =>
    if c = ',' ∧ c2 = ' ' then [] :: splitCommaSpace r2
    else
      match splitCommaSpace (c2 :: r2) with
      | [] => [[c]]
      | f :: fs => (c :: f) :: fs

/-- String wrapper for splitCommaSpace. -/
def pySplitCS (s : String) : List String :=
  (splitCommaSpace s.data).map (fun cs => String.mk cs)

/-- Inner loop of map_workflows_with_channels (lines 432-495 of
src/script.py): one output row per channel id, combined on a hit, null
channel and destination fields on a miss. -/
def channelRows (channels_data : List ChannelCsvRow) (w : WorkflowCsvRow) :
    List String → List WorkflowChannelRow
  | [] => []
  | channel_id :: rest =>
    (match pyDictGet ChannelCsvRow.channel_id channels_data channel_id with
     | some channel =>
       { workflow_name := w.workflow_name
         workflow_id := w.workflow_id
         destination_channel_ids := w.destination_channel_ids
         alert_policy_name := w.alert_policy_name
         alert_policy_id := w.alert_policy_id
         nrql_condition_id := w.nrql_condition_id
         alert_condition_name := w.alert_condition_name
         nrql_query := w.nrql_query
         nrql_condition := w.nrql_condition
         attr_accumulations_policyName := w.attr_accumulations_policyName
         attr_labels_policyIds := w.attr_labels_policyIds
         policy_operator := w.policy_operator
         policy_values := w.policy_values
         channel_id := channel.channel_id
         destination_channel_name := some channel.channel_name
         destination_channel_type := some channel.channel_type
         destination_id := some channel.destination_id
         destination_key := some channel.destination_key
         destination_value := some channel.destination_value }
     | none =>
       { workflow_name := w.workflow_name
         workflow_id := w.workflow_id
         destination_channel_ids := w.destination_channel_ids
         alert_policy_name := w.alert_policy_name
         alert_policy_id := w.alert_policy_id
         nrql_condition_id := w.nrql_condition_id
         alert_condition_name := w.alert_condition_name
         nrql_query := w.nrql_query
         nrql_condition := w.nrql_condition
         attr_accumulations_policyName := w.attr_accumulations_policyName
         attr_labels_policyIds := w.attr_labels_policyIds
         policy_operator := w.policy_operator
         policy_values := w.policy_values
         channel_id := channel_id
         destination_channel_name := none
         destination_channel_type := none
         destination_id := none
         destination_key := none
         destination_value := none })
    :: channelRows channels_data w rest

/-- Join Stage D: map_workflows_with_channels (lines 421-497 of
src/script.py). -/
def map_workflows_with_channels (workflows_data : List WorkflowCsvRow)
    (channels_data : List ChannelCsvRow) : List WorkflowChannelRow :=
  match workflows_data with
  | [] => []
  | w :: rest =>
    channelRows channels_data w (pySplitCS w.destination_channel_ids)
    ++ map_workflows_with_channels rest channels_data

/-- One server response page of a paginated fetch: the entity list and
the nextCursor field (absent is modelled by none). -/
structure Page (α : Type) where
  entities : List α
  nextCursor : Option String
  deriving DecidableEq, Repr

/-- Python falsiness of the cursor (the loops test the cursor with a
not operator, so both null and the empty string stop the loop). -/
def cursorDone (c : Option String) : Bool :=
  match c with
  | none => true
  | some s => s == ""

/-- Shared pagination loop of the four fetchers (lines 30-57, 60-98,
131-172 and 256-284 of src/script.py): append each page's entities,
then continue exactly when the page's cursor is not falsy.  The page
list is the sequence of server responses in arrival order. -/
def fetchLoop {α : Type} : List (Page α) → List α
  | [] => []
  | p :: rest => p.entities ++ (if cursorDone p.nextCursor then [] else fetchLoop rest)

/-- HTTP wrapper fetch_data (lines 18-24 of src/script.py):
response.raise_for_status() raises exactly for client-error (4xx) and
server-error (5xx) status codes; otherwise the parsed body is returned.
The single requests.post call is modelled by the status and body of its
one response; no retry exists in the code. -/
def fetch_data {α : Type} (status : Nat) (body : α) : Except Nat α :=
  if 400 ≤ status ∧ status < 600 then Except.error status else Except.ok body

/-! CSV serialization model.

write_to_csv (lines 377-382 of src/script.py) uses csv.DictWriter with
the default excel dialect: delimiter comma, quote character the double
quote, QUOTE_MINIMAL quoting, line terminator CR LF, and the file is
opened for writing with newline set to the empty string, so the writer
output reaches the file verbatim.  generate_workflows_with_channels
(lines 500-507) opens the files for reading in plain text mode, which
applies universal-newline translation (CR LF and lone CR both become
LF) before csv.DictReader parses the stream.  Cells are List Char. -/

/-- QUOTE_MINIMAL test: a field is quoted when it contains the
delimiter, the quote character, or a character of the CR LF line
terminator. -/
def needsQuote (v : List Char) : Bool :=
  v.any (fun c => c == ',' || c == '\"' || c == '\r' || c == '\n')

/-- Quote duplication applied inside a quoted field. -/
def escQ : List Char → List Char
  | [] => []
  | c :: r => if c = '\"' then '\"' :: '\"' :: escQ r else c :: escQ r

/-- Rendering of one field under QUOTE_MINIMAL. -/
def renderCell (v : List Char) : List Char :=
  if needsQuote v then '\"' :: (escQ v ++ ['\"']) else v

/-- Rendering of one record: fields rendered and joined with the comma
delimiter (no terminator).  A record consisting of a single empty field
is written as a quoted empty string, as the csv writer does to keep the
line distinguishable from a blank line. -/
def renderRowAux : List (List Char) → List Char
  | [] => []
  | [v] => if v = [] then ['\"', '\"'] else renderCell v
  | v :: r => renderCell v ++ ',' :: renderRowAux r

/-- Full file contents for a list of records: each record followed by
the CR LF terminator. -/
def csvFile : List (List (List Char)) → List Char
  | [] => []
  | r :: rest => renderRowAux r ++ '\r' :: '\n' :: csvFile rest

/-- An in-memory record as handed to csv.DictWriter: an ordered mapping
from field name to text value. -/
abbrev Rec := List (List Char × List Char)

/-- Value of a record at a key: first matching entry, the empty string
when the key is absent (DictWriter's restval of None is written as the
empty field). -/
def getVal (r : Rec) (k : List Char) : List Char :=
  match r.find? (fun kv => kv.1 == k) with
  | some kv => kv.2
  | none => []

/-- write_to_csv (lines 377-382 of src/script.py): fieldnames are the
keys of the first record; the header row is written first, then each
record's values in fieldname order, appended in sequence.  An empty
record list fails on the data[0] subscript before anything is written,
modelled by none. -/
def write_to_csv (data : List Rec) : Option (List Char) :=
  match data with
  | [] => none
  | d0 :: _ =>
    let fieldnames := d0.map Prod.fst
    some (data.foldl
      (fun acc r => acc ++ renderRowAux (fieldnames.map (getVal r)) ++ ['\r', '\n'])
      (renderRowAux fieldnames ++ ['\r', '\n']))

/-- Universal-newline translation applied by reading a file in plain
text mode: CR LF becomes LF and a lone CR becomes LF. -/
def univNL : List Char → List Char
  | [] => []
  | [c] => if c = '\r' then ['\n'] else [c]
  | c :: c2 :: r =>
    if c = '\r' then
      if c2 = '\n' then '\n' :: univNL r else '\n' :: univNL (c2 :: r)
    else c :: univNL (c2 :: r)

/-- Record splitter of the csv reader: a LF outside quotes ends a
record; quote characters toggle the quoted state; a pending non-empty
record is emitted at end of input.  The accumulator holds the current
record reversed. -/
def splitRecsAux (cur : List Char) (inQ : Bool) : List Char → List (List Char)
  | [] => if cur = [] then [] else [cur.reverse]
  | c :: rest =>
    if c = '\n' ∧ inQ = false then cur.reverse :: splitRecsAux [] false rest
    else if c = '\"' then splitRecsAux (c :: cur) (!inQ) rest
    else splitRecsAux (c :: cur) inQ rest

/-- Record splitter entry point. -/
def splitRecs (s : List Char) : List (List Char) :=
  splitRecsAux [] false s

/-- Field splitter of the csv reader within one record: a comma outside
quotes separates fields. -/
def splitFieldsAux (cur : List Char) (inQ : Bool) : List Char → List (List Char)
  | [] => [cur.reverse]
  | c :: rest =>
    if c = ',' ∧ inQ = false then cur.reverse :: splitFieldsAux [] false rest
    else if c = '\"' then splitFieldsAux (c :: cur) (!inQ) rest
    else splitFieldsAux (c :: cur) inQ rest

/-- Unescaping of the body of a quoted field: a doubled quote is a
literal quote, a single quote closes the field. -/
def unescQ : List Char → List Char
  | [] => []
  | c :: r =>
    if c = '\"' then
      match r with
      | [] => []
      | c2 :: r2 => if c2 = '\"' then '\"' :: unescQ r2 else []
    else c :: unescQ r

/-- Decoding of one raw field: a leading quote starts a quoted field
whose body is unescaped; anything else is taken verbatim. -/
def unquoteCell (v : List Char) : List Char :=
  match v with
  | [] => []
  | c :: r => if c = '\"' then unescQ r else c :: r

/-- Parsing of one record line: a blank line is the empty record (as in
the Python csv reader); otherwise fields are split and decoded. -/
def parseLine (l : List Char) : List (List Char) :=
  if l = [] then [] else (splitFieldsAux [] false l).map unquoteCell

/-- Parsing of a whole stream into records of raw text fields. -/
def readRows (s : List Char) : List (List (List Char)) :=
  (splitRecs s).map parseLine

/-- csv.DictReader model as used in generate_workflows_with_channels
(lines 500-507 of src/script.py): the first record gives the
fieldnames, blank records are skipped, and every further record is
associated with the fieldnames positionally. -/
def readCsvDicts (s : List Char) : List Rec :=
  match readRows s with
  | [] => []
  | h :: rs => (rs.filter (fun r => !r.isEmpty)).map (fun r => h.zip r)

/-- Scanning invariant used in the csv round-trip proofs: within the
segment, no delimiter and no LF occurs outside quotes, quote characters
toggle the quoted state, and the segment ends outside quotes. -/
def scanOk (delim : Char) : Bool → List Char → Bool
  | q, [] => !q
  | q, c :: r =>
    if (c = delim ∨ c = '\n') ∧ q = false then false
    else if c = '\"' then scanOk delim (!q) r
    else scanOk delim q r

/-! Theorems.  First, distribution of each join stage over list
append, mirroring that the Python loops handle items independently. -/

theorem gapc_append (policies : List Policy) (a b : List NrqlCondition) :
    get_alert_policies_and_conditions policies (a ++ b) =
      get_alert_policies_and_conditions policies a ++
        get_alert_policies_and_conditions policies b := by
  induction a with
  | nil => simp [get_alert_policies_and_conditions]
  | cons c rest ih =>
    simp only [List.cons_append, get_alert_policies_and_conditions]
    cases pyDictGet Policy.id policies c.policyId <;> simp [ih]

theorem predicateRows_append (aps : List PolicyConditionRow) (wname wid dci : String)
    (a b : List Predicate) :
    predicateRows aps wname wid dci (a ++ b) =
      predicateRows aps wname wid dci a ++ predicateRows aps wname wid dci b := by
  induction a with
  | nil => simp [predicateRows]
  | cons p rest ih =>
    simp only [List.cons_append, predicateRows]
    simp [ih]

/-- C2: in Join Stage A, a condition whose policyId is not a key of the
policy mapping emits no row, and a condition whose policyId resolves to
policy p emits exactly one row whose nrql_condition field is the
semicolon-space join, in original term order, of the formatted terms. -/
theorem c2_stageA_policy_condition_join (policies : List Policy)
    (pre post : List NrqlCondition) (c : NrqlCondition) :
    (pyDictGet Policy.id policies c.policyId = none →
      get_alert_policies_and_conditions policies (pre ++ c :: post) =
        get_alert_policies_and_conditions policies (pre ++ post)) ∧
    (∀ p, pyDictGet Policy.id policies c.policyId = some p →
      get_alert_policies_and_conditions policies (pre ++ c :: post) =
        get_alert_policies_and_conditions policies pre ++
        [{ alert_policy_name := p.name
           alert_policy_id := p.id
           nrql_condition_id := c.id
           alert_condition_name := c.name
           nrql_query := c.nrqlQuery
           nrql_condition := String.intercalate "; " (c.terms.map formatTerm) }] ++
        get_alert_policies_and_conditions policies post) := by
  constructor
  · intro h
    rw [gapc_append, gapc_append]
    simp [get_alert_policies_and_conditions, h]
  · intro p hp
    rw [gapc_append]
    simp [get_alert_policies_and_conditions, hp]

/-- Witness for C2 at the spec's end-to-end scenario: policy p1 with a
one-term condition produces the documented description string, and a
condition referencing an unknown policy produces nothing. -/
theorem c2_stageA_policy_condition_join_witness :
    get_alert_policies_and_conditions
        [{ id := "p1", name := "CPU High", incidentPreference := "PER_POLICY" }]
        [{ policyId := "p1", id := "c1", type := "STATIC", name := "cpu cond",
           nrqlQuery := "SELECT 1",
           terms := [{ operator := "ABOVE", priority := "CRITICAL", threshold := "90",
                       thresholdDuration := "300", thresholdOccurrences := "ALL" }] }] =
      [{ alert_policy_name := "CPU High", alert_policy_id := "p1",
         nrql_condition_id := "c1", alert_condition_name := "cpu cond",
         nrql_query := "SELECT 1",
         nrql_condition := "operator: ABOVE, priority: CRITICAL, threshold: 90, duration: 300, occurrences: ALL" }] ∧
    get_alert_policies_and_conditions
        [{ id := "p1", name := "CPU High", incidentPreference := "PER_POLICY" }]
        [{ policyId := "p9", id := "c2", type := "STATIC", name := "orphan",
           nrqlQuery := "SELECT 2", terms := [] }] = [] := by
  constructor
  · have h := (c2_stageA_policy_condition_join
      [{ id := "p1", name := "CPU High", incidentPreference := "PER_POLICY" }] [] []
      { policyId := "p1", id := "c1", type := "STATIC", name := "cpu cond",
        nrqlQuery := "SELECT 1",
        terms := [{ operator := "ABOVE", priority := "CRITICAL", threshold := "90",
                    thresholdDuration := "300", thresholdOccurrences := "ALL" }] }).2
      { id := "p1", name := "CPU High", incidentPreference := "PER_POLICY" }
      (by decide)
    simpa using h
  · have h := (c2_stageA_policy_condition_join
      [{ id := "p1", name := "CPU High", incidentPreference := "PER_POLICY" }] [] []
      { policyId := "p9", id := "c2", type := "STATIC", name := "orphan",
        nrqlQuery := "SELECT 2", terms := [] }).1 (by decide)
    simpa using h

/-- C1: in Join Stage B, for a workflow with an issues filter, a
labels.policyIds predicate with values A and B of which only A is a key
of the policy-condition mapping contributes exactly the one row for A
(matched id, operator and values carried); an accumulations.policyName
predicate contributes exactly one all-null row with its values
verbatim; a predicate with any other attribute contributes nothing. -/
theorem c1_stageB_predicate_rows (aps : List PolicyConditionRow)
    (wid wname : String) (dcs : List DestinationConfig)
    (pre post : List Predicate) (op : String) (vals : List String) (A B : String) :
    (∀ ap, pyDictGet PolicyConditionRow.alert_policy_id aps A = some ap →
      pyDictGet PolicyConditionRow.alert_policy_id aps B = none →
      process_workflows
          [{ id := wid, name := wname, destinationConfigurations := dcs,
             issuesFilter := some ⟨pre ++ ⟨"labels.policyIds", op, [A, B]⟩ :: post⟩ }] aps =
        process_workflows
          [{ id := wid, name := wname, destinationConfigurations := dcs,
             issuesFilter := some ⟨pre⟩ }] aps ++
        [{ workflow_name := wname
           workflow_id := wid
           destination_channel_ids :=
             String.intercalate ", " (dcs.map DestinationConfig.channelId)
           alert_policy_name := some ap.alert_policy_name
           alert_policy_id := some ap.alert_policy_id
           nrql_condition_id := some ap.nrql_condition_id
           alert_condition_name := some ap.alert_condition_name
           nrql_query := some ap.nrql_query
           nrql_condition := some ap.nrql_condition
           attr_accumulations_policyName := none
           attr_labels_policyIds := some A
           policy_operator := op
           policy_values := [A, B] }] ++
        process_workflows
          [{ id := wid, name := wname, destinationConfigurations := dcs,
             issuesFilter := some ⟨post⟩ }] aps) ∧
    (process_workflows
          [{ id := wid, name := wname, destinationConfigurations := dcs,
             issuesFilter := some ⟨pre ++ ⟨"accumulations.policyName", op, vals⟩ :: post⟩ }] aps =
        process_workflows
          [{ id := wid, name := wname, destinationConfigurations := dcs,
             issuesFilter := some ⟨pre⟩ }] aps ++
        [{ workflow_name := wname
           workflow_id := wid
           destination_channel_ids :=
             String.intercalate ", " (dcs.map DestinationConfig.channelId)
           alert_policy_name := none
           alert_policy_id := none
           nrql_condition_id := none
           alert_condition_name := none
           nrql_query := none
           nrql_condition := none
           attr_accumulations_policyName := some vals
           attr_labels_policyIds := none
           policy_operator := op
           policy_values := vals }] ++
        process_workflows
          [{ id := wid, name := wname, destinationConfigurations := dcs,
             issuesFilter := some ⟨post⟩ }] aps) ∧
    (∀ a, a ≠ "labels.policyIds" → a ≠ "accumulations.policyName" →
      process_workflows
          [{ id := wid, name := wname, destinationConfigurations := dcs,
             issuesFilter := some ⟨pre ++ ⟨a, op, vals⟩ :: post⟩ }] aps =
        process_workflows
          [{ id := wid, name := wname, destinationConfigurations := dcs,
             issuesFilter := some ⟨pre⟩ }] aps ++
        process_workflows
          [{ id := wid, name := wname, destinationConfigurations := dcs,
             issuesFilter := some ⟨post⟩ }] aps) := by
  refine ⟨?_, ?_, ?_⟩
  · intro ap hA hB
    simp only [process_workflows, List.append_nil, predicateRows_append]
    simp [predicateRows, labelsPolicyIdsRows, hA, hB]
  · simp only [process_workflows, List.append_nil, predicateRows_append]
    simp [predicateRows]
  · intro a ha1 ha2
    simp only [process_workflows, List.append_nil, predicateRows_append]
    simp [predicateRows, ha1, ha2]

/-- Witness for C1: one matched and one unmatched value give one row,
an accumulations predicate gives its null row, and an unknown attribute
gives nothing. -/
theorem c1_stageB_predicate_rows_witness :
    process_workflows
        [{ id := "w1", name := "wf", destinationConfigurations :=
             [{ channelId := "ch1", name := "cfg", notificationTriggers := [],
                type := "EMAIL", updateOriginalMessage := true }],
           issuesFilter := some ⟨[⟨"labels.policyIds", "EXACTLY_MATCHES", ["p1", "p9"]⟩]⟩ }]
        [{ alert_policy_name := "CPU High", alert_policy_id := "p1",
           nrql_condition_id := "c1", alert_condition_name := "cpu cond",
           nrql_query := "SELECT 1", nrql_condition := "d" }] =
      [{ workflow_name := "wf", workflow_id := "w1",
         destination_channel_ids := "ch1",
         alert_policy_name := some "CPU High", alert_policy_id := some "p1",
         nrql_condition_id := some "c1", alert_condition_name := some "cpu cond",
         nrql_query := some "SELECT 1", nrql_condition := some "d",
         attr_accumulations_policyName := none,
         attr_labels_policyIds := some "p1",
         policy_operator := "EXACTLY_MATCHES", policy_values := ["p1", "p9"] }] ∧
    process_workflows
        [{ id := "w1", name := "wf", destinationConfigurations := [],
           issuesFilter := some ⟨[⟨"accumulations.policyName", "CONTAINS", ["x"]⟩]⟩ }] [] =
      [{ workflow_name := "wf", workflow_id := "w1",
         destination_channel_ids := "",
         alert_policy_name := none, alert_policy_id := none,
         nrql_condition_id := none, alert_condition_name := none,
         nrql_query := none, nrql_condition := none,
         attr_accumulations_policyName := some ["x"],
         attr_labels_policyIds := none,
         policy_operator := "CONTAINS", policy_values := ["x"] }] ∧
    process_workflows
        [{ id := "w1", name := "wf", destinationConfigurations := [],
           issuesFilter := some ⟨[⟨"priority", "EQUAL", ["CRITICAL"]⟩]⟩ }] [] = [] := by
  refine ⟨?_, ?_, ?_⟩
  · have h := (c1_stageB_predicate_rows
      [{ alert_policy_name := "CPU High", alert_policy_id := "p1",
         nrql_condition_id := "c1", alert_condition_name := "cpu cond",
         nrql_query := "SELECT 1", nrql_condition := "d" }]
      "w1" "wf"
      [{ channelId := "ch1", name := "cfg", notificationTriggers := [],
         type := "EMAIL", updateOriginalMessage := true }]
      [] [] "EXACTLY_MATCHES" [] "p1" "p9").1
      { alert_policy_name := "CPU High", alert_policy_id := "p1",
        nrql_condition_id := "c1", alert_condition_name := "cpu cond",
        nrql_query := "SELECT 1", nrql_condition := "d" }
      (by decide) (by decide)
    simpa using h
  · have h := (c1_stageB_predicate_rows [] "w1" "wf" [] [] [] "CONTAINS" ["x"] "" "").2.1
    simpa using h
  · have h := (c1_stageB_predicate_rows [] "w1" "wf" [] [] [] "EQUAL" ["CRITICAL"] "" "").2.2
      "priority" (by decide) (by decide)
    simpa using h

theorem mapcd_append (destinations : List Destination) (a b : List Channel) :
    map_channels_to_destinations (a ++ b) destinations =
      map_channels_to_destinations a destinations ++
        map_channels_to_destinations b destinations := by
  induction a with
  | nil => simp [map_channels_to_destinations]
  | cons ch rest ih =>
    simp only [List.cons_append, map_channels_to_destinations]
    simp [ih]

/-- C3: in Join Stage C, a channel whose destination is found and has at
least one property with key email or url yields exactly one row per such
property (key and value carried) and none for other properties; a found
destination without such a property, or an unknown destinationId, yields
exactly one row with null key and value, the channel's destination_id
still carried. -/
theorem c3_stageC_channel_destination_join (destinations : List Destination)
    (channel : Channel) :
    (∀ d, pyDictGet Destination.id destinations channel.destinationId = some d →
      d.properties.filter (fun pr => pr.key == "email" || pr.key == "url") ≠ [] →
      map_channels_to_destinations [channel] destinations =
        (d.properties.filter (fun pr => pr.key == "email" || pr.key == "url")).map
          (fun pr =>
            { channel_id := channel.id
              channel_name := channel.name
              channel_type := channel.type
              destination_id := channel.destinationId
              destination_key := some pr.key
              destination_value := some pr.value })) ∧
    (∀ d, pyDictGet Destination.id destinations channel.destinationId = some d →
      d.properties.filter (fun pr => pr.key == "email" || pr.key == "url") = [] →
      map_channels_to_destinations [channel] destinations =
        [{ channel_id := channel.id
           channel_name := channel.name
           channel_type := channel.type
           destination_id := channel.destinationId
           destination_key := none
           destination_value := none }]) ∧
    (pyDictGet Destination.id destinations channel.destinationId = none →
      map_channels_to_destinations [channel] destinations =
        [{ channel_id := channel.id
           channel_name := channel.name
           channel_type := channel.type
           destination_id := channel.destinationId
           destination_key := none
           destination_value := none }]) := by
  refine ⟨?_, ?_, ?_⟩
  · intro d hd hne
    simp [map_channels_to_destinations, hd, List.isEmpty_iff, hne]
  · intro d hd he
    simp [map_channels_to_destinations, hd, List.isEmpty_iff, he]
  · intro hd
    simp [map_channels_to_destinations, hd]

/-- Witness for C3 at the spec's scenario: destination d1 with an email
and a slackToken property yields exactly the email row; a channel with
an unknown destination yields the null row. -/
theorem c3_stageC_channel_destination_join_witness :
    map_channels_to_destinations
        [{ id := "ch1", name := "mail", type := "EMAIL", destinationId := "d1",
           product := "IINT" }]
        [{ properties := [⟨"email", "a@x.com"⟩, ⟨"slackToken", "xyz"⟩],
           id := "d1", name := "dest" }] =
      [{ channel_id := "ch1", channel_name := "mail", channel_type := "EMAIL",
         destination_id := "d1", destination_key := some "email",
         destination_value := some "a@x.com" }] ∧
    map_channels_to_destinations
        [{ id := "ch2", name := "hook", type := "WEBHOOK", destinationId := "d9",
           product := "IINT" }]
        [{ properties := [⟨"email", "a@x.com"⟩, ⟨"slackToken", "xyz"⟩],
           id := "d1", name := "dest" }] =
      [{ channel_id := "ch2", channel_name := "hook", channel_type := "WEBHOOK",
         destination_id := "d9", destination_key := none,
         destination_value := none }] := by
  constructor
  · have h := (c3_stageC_channel_destination_join
      [{ properties := [⟨"email", "a@x.com"⟩, ⟨"slackToken", "xyz"⟩],
         id := "d1", name := "dest" }]
      { id := "ch1", name := "mail", type := "EMAIL", destinationId := "d1",
        product := "IINT" }).1
      { properties := [⟨"email", "a@x.com"⟩, ⟨"slackToken", "xyz"⟩],
        id := "d1", name := "dest" }
      (by decide) (by decide)
    simpa using h
  · have h := (c3_stageC_channel_destination_join
      [{ properties := [⟨"email", "a@x.com"⟩, ⟨"slackToken", "xyz"⟩],
         id := "d1", name := "dest" }]
      { id := "ch2", name := "hook", type := "WEBHOOK", destinationId := "d9",
        product := "IINT" }).2.2 (by decide)
    simpa using h

theorem mapwc_append (channels_data : List ChannelCsvRow) (a b : List WorkflowCsvRow) :
    map_workflows_with_channels (a ++ b) channels_data =
      map_workflows_with_channels a channels_data ++
        map_workflows_with_channels b channels_data := by
  induction a with
  | nil => simp [map_workflows_with_channels]
  | cons w rest ih =>
    simp only [List.cons_append, map_workflows_with_channels]
    simp [ih]

/-- C4: in Join Stage D, each input row's destination_channel_ids field
is split on comma-space and exactly one output row is produced per
resulting channel id: on a lookup hit the combined row, on a miss the
same workflow fields with the unmatched id as channel_id and null
channel and destination fields. -/
theorem c4_stageD_workflow_channel_join (channels_data : List ChannelCsvRow)
    (workflows_data : List WorkflowCsvRow) :
    map_workflows_with_channels workflows_data channels_data =
      workflows_data.flatMap (fun w =>
        (pySplitCS w.destination_channel_ids).map (fun channel_id =>
          match pyDictGet ChannelCsvRow.channel_id channels_data channel_id with
          | some channel =>
            { workflow_name := w.workflow_name
              workflow_id := w.workflow_id
              destination_channel_ids := w.destination_channel_ids
              alert_policy_name := w.alert_policy_name
              alert_policy_id := w.alert_policy_id
              nrql_condition_id := w.nrql_condition_id
              alert_condition_name := w.alert_condition_name
              nrql_query := w.nrql_query
              nrql_condition := w.nrql_condition
              attr_accumulations_policyName := w.attr_accumulations_policyName
              attr_labels_policyIds := w.attr_labels_policyIds
              policy_operator := w.policy_operator
              policy_values := w.policy_values
              channel_id := channel.channel_id
              destination_channel_name := some channel.channel_name
              destination_channel_type := some channel.channel_type
              destination_id := some channel.destination_id
              destination_key := some channel.destination_key
              destination_value := some channel.destination_value }
          | none =>
            { workflow_name := w.workflow_name
              workflow_id := w.workflow_id
              destination_channel_ids := w.destination_channel_ids
              alert_policy_name := w.alert_policy_name
              alert_policy_id := w.alert_policy_id
              nrql_condition_id := w.nrql_condition_id
              alert_condition_name := w.alert_condition_name
              nrql_query := w.nrql_query
              nrql_condition := w.nrql_condition
              attr_accumulations_policyName := w.attr_accumulations_policyName
              attr_labels_policyIds := w.attr_labels_policyIds
              policy_operator := w.policy_operator
              policy_values := w.policy_values
              channel_id := channel_id
              destination_channel_name := none
              destination_channel_type := none
              destination_id := none
              destination_key := none
              destination_value := none })) := by
  induction workflows_data with
  | nil => simp [map_workflows_with_channels]
  | cons w rest ih =>
    simp only [map_workflows_with_channels, List.flatMap_cons, ih]
    congr 1
    induction pySplitCS w.destination_channel_ids with
    | nil => simp [channelRows]
    | cons cid t iht =>
      simp only [channelRows, List.map_cons, iht]

/-- C7: the shared pagination loop accumulates exactly the
concatenation of the pages' entity lists in server order, and stops
after the first page whose cursor is falsy, leaving any further pages
unrequested. -/
theorem c7_pagination_loop {α : Type} (pages : List (Page α)) (last : Page α)
    (extra : List (Page α))
    (hmid : ∀ p ∈ pages, cursorDone p.nextCursor = false)
    (hlast : cursorDone last.nextCursor = true) :
    fetchLoop (pages ++ last :: extra) =
      (pages.map Page.entities).flatten ++ last.entities := by
  induction pages with
  | nil => simp [fetchLoop, hlast]
  | cons p t ih =>
    have hp : cursorDone p.nextCursor = false := hmid p (List.mem_cons_self p t)
    have ht : ∀ q ∈ t, cursorDone q.nextCursor = false :=
      fun q hq => hmid q (List.mem_cons_of_mem p hq)
    simp [fetchLoop, hp, ih ht, List.append_assoc]

/-- Witness for C7: two full pages followed by a terminal page and an
extra page that is never requested. -/
theorem c7_pagination_loop_witness :
    fetchLoop [Page.mk [1, 2] (some "cur1"), Page.mk ([] : List Nat) (some "cur2"),
               Page.mk [3] (some ""), Page.mk [4] none] = [1, 2, 3] := by
  have h := c7_pagination_loop
    [Page.mk [1, 2] (some "cur1"), Page.mk ([] : List Nat) (some "cur2")]
    (Page.mk [3] (some "")) [Page.mk [4] none]
    (by decide) (by decide)
  simpa using h

/-- C9: fetch_data returns the parsed body exactly when the response
status is below 400 (the requests library's notion of a successful,
non-error status) and raises exactly on a 4xx or 5xx status; the
definition makes the single call with no retry. -/
theorem c9_fetch_data_raise {α : Type} (status : Nat) (body : α)
    (h : status < 600) :
    (fetch_data status body = Except.ok body ↔ status < 400) ∧
    (fetch_data status body = Except.error status ↔ 400 ≤ status) := by
  by_cases h4 : 400 ≤ status
  · have hif : fetch_data status body = Except.error status := by
      simp [fetch_data, h4, h]
    rw [hif]
    constructor
    · constructor
      · intro hx; simp at hx
      · intro hx; omega
    · simp [h4]
  · have hif : fetch_data status body = Except.ok body := by
      simp [fetch_data, h4]
    rw [hif]
    constructor
    · simp; omega
    · constructor
      · intro hx; simp at hx
      · intro hx; omega

/-- Witness for C9 at statuses 404 and 200. -/
theorem c9_fetch_data_raise_witness :
    ((fetch_data 404 (0 : Nat) = Except.ok 0 ↔ 404 < 400) ∧
      (fetch_data 404 (0 : Nat) = Except.error 404 ↔ 400 ≤ 404)) ∧
    ((fetch_data 200 (0 : Nat) = Except.ok 0 ↔ 200 < 400) ∧
      (fetch_data 200 (0 : Nat) = Except.error 200 ↔ 400 ≤ 200)) :=
  ⟨c9_fetch_data_raise 404 0 (by decide), c9_fetch_data_raise 200 0 (by decide)⟩

theorem channelRows_length (channels_data : List ChannelCsvRow)
    (w : WorkflowCsvRow) (ids : List String) :
    (channelRows channels_data w ids).length = ids.length := by
  induction ids with
  | nil => simp [channelRows]
  | cons c t ih => simp [channelRows, ih]

theorem splitCommaSpace_ne_nil (s : List Char) : splitCommaSpace s ≠ [] := by
  match s with
  | [] => simp [splitCommaSpace]
  | [c] => simp [splitCommaSpace]
  | c :: c2 :: r2 =>
    simp only [splitCommaSpace]
    split
    · simp
    · split <;> simp

theorem pySplitCS_length_pos (s : String) : 1 ≤ (pySplitCS s).length := by
  have h := splitCommaSpace_ne_nil s.data
  simp only [pySplitCS, List.length_map]
  exact List.length_pos.mpr h

theorem mapwc_length (workflows_data : List WorkflowCsvRow)
    (channels_data : List ChannelCsvRow) :
    workflows_data.length ≤
      (map_workflows_with_channels workflows_data channels_data).length := by
  induction workflows_data with
  | nil => simp [map_workflows_with_channels]
  | cons w t ih =>
    have h1 := pySplitCS_length_pos w.destination_channel_ids
    simp only [map_workflows_with_channels, List.length_append, List.length_cons,
      channelRows_length]
    omega

theorem mapcd_length (channels : List Channel) (destinations : List Destination) :
    channels.length ≤
      (map_channels_to_destinations channels destinations).length := by
  induction channels with
  | nil => simp [map_channels_to_destinations]
  | cons ch t ih =>
    simp only [map_channels_to_destinations, List.length_append, List.length_cons]
    cases hd : pyDictGet Destination.id destinations ch.destinationId with
    | none => simp; omega
    | some d =>
      simp only []
      split
      · simp; omega
      · rename_i hne
        have hne2 :
            d.properties.filter (fun pr => pr.key == "email" || pr.key == "url") ≠ [] := by
          simpa [List.isEmpty_iff] using hne
        have hpos := List.length_pos.mpr hne2
        simp [List.length_map]
        omega

/-- C10: every input row of Join Stage D yields at least one output
row; in particular an empty destination_channel_ids field splits to the
single empty id, producing exactly one row with the empty channel_id
and null channel and destination fields. -/
theorem c10_stageD_at_least_one_row (channels_data : List ChannelCsvRow)
    (w : WorkflowCsvRow) :
    (∀ workflows_data : List WorkflowCsvRow,
      workflows_data.length ≤
        (map_workflows_with_channels workflows_data channels_data).length) ∧
    (w.destination_channel_ids = "" →
      pyDictGet ChannelCsvRow.channel_id channels_data "" = none →
      map_workflows_with_channels [w] channels_data =
        [{ workflow_name := w.workflow_name
           workflow_id := w.workflow_id
           destination_channel_ids := ""
           alert_policy_name := w.alert_policy_name
           alert_policy_id := w.alert_policy_id
           nrql_condition_id := w.nrql_condition_id
           alert_condition_name := w.alert_condition_name
           nrql_query := w.nrql_query
           nrql_condition := w.nrql_condition
           attr_accumulations_policyName := w.attr_accumulations_policyName
           attr_labels_policyIds := w.attr_labels_policyIds
           policy_operator := w.policy_operator
           policy_values := w.policy_values
           channel_id := ""
           destination_channel_name := none
           destination_channel_type := none
           destination_id := none
           destination_key := none
           destination_value := none }]) := by
  constructor
  · intro ws
    exact mapwc_length ws channels_data
  · intro hdci hmiss
    have hsplit : pySplitCS "" = [""] := by decide
    simp [map_workflows_with_channels, hdci, hsplit, channelRows, hmiss]

/-- Witness for C10: a row with an empty channel list and no channel
table entry with an empty id yields exactly one null-channel row. -/
theorem c10_stageD_at_least_one_row_witness :
    map_workflows_with_channels
        [{ workflow_name := "wf", workflow_id := "w1",
           destination_channel_ids := "", alert_policy_name := "p",
           alert_policy_id := "p1", nrql_condition_id := "c1",
           alert_condition_name := "cn", nrql_query := "q", nrql_condition := "d",
           attr_accumulations_policyName := "", attr_labels_policyIds := "p1",
           policy_operator := "OP", policy_values := "['p1']" }]
        [{ channel_id := "ch1", channel_name := "mail", channel_type := "EMAIL",
           destination_id := "d1", destination_key := "email",
           destination_value := "a@x.com" }] =
      [{ workflow_name := "wf", workflow_id := "w1",
         destination_channel_ids := "", alert_policy_name := "p",
         alert_policy_id := "p1", nrql_condition_id := "c1",
         alert_condition_name := "cn", nrql_query := "q", nrql_condition := "d",
         attr_accumulations_policyName := "", attr_labels_policyIds := "p1",
         policy_operator := "OP", policy_values := "['p1']",
         channel_id := "", destination_channel_name := none,
         destination_channel_type := none, destination_id := none,
         destination_key := none, destination_value := none }] := by
  have h := (c10_stageD_at_least_one_row
    [{ channel_id := "ch1", channel_name := "mail", channel_type := "EMAIL",
       destination_id := "d1", destination_key := "email",
       destination_value := "a@x.com" }]
    { workflow_name := "wf", workflow_id := "w1",
      destination_channel_ids := "", alert_policy_name := "p",
      alert_policy_id := "p1", nrql_condition_id := "c1",
      alert_condition_name := "cn", nrql_query := "q", nrql_condition := "d",
      attr_accumulations_policyName := "", attr_labels_policyIds := "p1",
      policy_operator := "OP", policy_values := "['p1']" }).2 rfl (by decide)
  simpa using h

/-- Counterexample to C6 as stated: Join Stage A drops a left-side
entity outside Stage B's unmatched-predicate-attribute case.  One input
condition whose policyId matches no policy produces zero output rows. -/
theorem c6_left_preservation_counterexample :
    ([{ policyId := "p9", id := "c1", type := "STATIC", name := "orphan",
        nrqlQuery := "SELECT 1", terms := [] }] : List NrqlCondition).length = 1 ∧
    get_alert_policies_and_conditions []
        [{ policyId := "p9", id := "c1", type := "STATIC", name := "orphan",
           nrqlQuery := "SELECT 1", terms := [] }] = [] := by
  constructor
  · rfl
  · decide

/-- C6 amended: Stages C and D preserve every left-side entity (at
least one output row each); Stages A and B are filtering joins that can
drop left-side items: Stage A drops a condition whose policyId matches
no policy, and Stage B drops a workflow without an issues filter (as
well as unmatched predicate values and foreign attributes, see C1). -/
theorem c6_join_preservation_amended :
    (∀ (channels : List Channel) (destinations : List Destination),
      channels.length ≤
        (map_channels_to_destinations channels destinations).length) ∧
    (∀ (workflows_data : List WorkflowCsvRow) (channels_data : List ChannelCsvRow),
      workflows_data.length ≤
        (map_workflows_with_channels workflows_data channels_data).length) ∧
    (∀ (policies : List Policy) (c : NrqlCondition),
      pyDictGet Policy.id policies c.policyId = none →
      get_alert_policies_and_conditions policies [c] = []) ∧
    (∀ (alert_policies : List PolicyConditionRow) (w : Workflow),
      w.issuesFilter = none → process_workflows [w] alert_policies = []) := by
  refine ⟨mapcd_length, mapwc_length, ?_, ?_⟩
  · intro policies c h
    simp [get_alert_policies_and_conditions, h]
  · intro aps w h
    simp [process_workflows, h]

/-- Witness for C6 amended at concrete inputs: the dropped-condition
and missing-filter cases. -/
theorem c6_join_preservation_amended_witness :
    get_alert_policies_and_conditions []
        [{ policyId := "p9", id := "c1", type := "STATIC", name := "orphan",
           nrqlQuery := "SELECT 1", terms := [] }] = [] ∧
    process_workflows
        [{ id := "w1", name := "wf", destinationConfigurations := [],
           issuesFilter := none }] [] = [] :=
  ⟨c6_join_preservation_amended.2.2.1 []
      { policyId := "p9", id := "c1", type := "STATIC", name := "orphan",
        nrqlQuery := "SELECT 1", terms := [] } (by decide),
   c6_join_preservation_amended.2.2.2 []
      { id := "w1", name := "wf", destinationConfigurations := [],
        issuesFilter := none } rfl⟩

theorem foldl_lines (f : Rec → List Char) (data : List Rec) (init : List Char) :
    data.foldl (fun acc r => acc ++ f r ++ ['\r', '\n']) init =
      init ++ (data.map (fun r => f r ++ ['\r', '\n'])).flatten := by
  induction data generalizing init with
  | nil => simp
  | cons r rest ih =>
    simp only [List.foldl_cons, List.map_cons, List.flatten_cons]
    rw [ih]
    simp [List.append_assoc]

theorem csvFile_eq_flatten (rows : List (List (List Char))) :
    csvFile rows = (rows.map (fun r => renderRowAux r ++ ['\r', '\n'])).flatten := by
  induction rows with
  | nil => simp [csvFile]
  | cons r rest ih => simp [csvFile, ih]

theorem write_to_csv_cons (d0 : Rec) (ds : List Rec) :
    write_to_csv (d0 :: ds) =
      some (csvFile ((d0.map Prod.fst) ::
        (d0 :: ds).map (fun r => (d0.map Prod.fst).map (getVal r)))) := by
  simp only [write_to_csv, foldl_lines, csvFile_eq_flatten, csvFile, List.map_cons]
  simp [List.append_assoc, Function.comp_def]

/-- C8: write_to_csv on a non-empty record list writes a header row in
the key order of the first record followed by one line per record with
its values in that same column order; on an empty list it fails on the
first subscript instead of producing file contents. -/
theorem c8_write_to_csv_contract :
    write_to_csv ([] : List Rec) = none ∧
    (∀ (d0 : Rec) (ds : List Rec),
      write_to_csv (d0 :: ds) =
        some (csvFile ((d0.map Prod.fst) ::
          (d0 :: ds).map (fun r => (d0.map Prod.fst).map (getVal r))))) :=
  ⟨rfl, write_to_csv_cons⟩

/-! Round-trip lemmas for the csv model. -/

theorem scanOk_append (d : Char) (a b : List Char) (q : Bool)
    (ha : scanOk d q a = true) (hb : scanOk d false b = true) :
    scanOk d q (a ++ b) = true := by
  induction a generalizing q with
  | nil =>
    have hq : q = false := by simpa [scanOk] using ha
    subst hq
    simpa using hb
  | cons c t ih =>
    simp only [scanOk, List.cons_append] at ha ⊢
    by_cases h1 : (c = d ∨ c = '\n') ∧ q = false
    · rw [if_pos h1] at ha; simp at ha
    · rw [if_neg h1] at ha ⊢
      by_cases h2 : c = '\"'
      · rw [if_pos h2] at ha ⊢; exact ih _ ha
      · rw [if_neg h2] at ha ⊢; exact ih _ ha

theorem scanOk_safe (d : Char) (v : List Char)
    (h : ∀ c ∈ v, ¬(c = d ∨ c = '\n') ∧ c ≠ '\"') : scanOk d false v = true := by
  induction v with
  | nil => simp [scanOk]
  | cons c t ih =>
    have hc := h c (List.mem_cons_self c t)
    simp only [scanOk]
    rw [if_neg (by simp [hc.1])]
    rw [if_neg hc.2]
    exact ih (fun x hx => h x (List.mem_cons_of_mem c hx))

theorem scan_escQ (d : Char) (hd : d ≠ '\"') (v s : List Char) :
    scanOk d true (escQ v ++ '\"' :: s) = scanOk d false s := by
  have hd2 : ('\"' : Char) ≠ d := Ne.symm hd
  induction v with
  | nil => simp [escQ, scanOk]
  | cons c t ih =>
    by_cases hc : c = '\"'
    · subst hc
      simp [escQ, scanOk, hd2, ih]
    · simp [escQ, scanOk, hc, ih]

theorem needsQuote_false_mem (v : List Char) (hq : needsQuote v = false) :
    ∀ c ∈ v, c ≠ ',' ∧ c ≠ '\"' ∧ c ≠ '\r' ∧ c ≠ '\n' := by
  have h2 : ∀ x ∈ v, ((¬x = ',' ∧ ¬x = '\"') ∧ ¬x = '\r') ∧ ¬x = '\n' := by
    simpa [needsQuote] using hq
  intro c hc
  obtain ⟨⟨⟨ha, hb⟩, hc'⟩, hd'⟩ := h2 c hc
  exact ⟨ha, hb, hc', hd'⟩

theorem scanOk_renderCell (d : Char) (hd : d = ',' ∨ d = '\n') (v : List Char) :
    scanOk d false (renderCell v) = true := by
  have hdq : d ≠ '\"' := by
    rcases hd with h | h
    · rw [h]; decide
    · rw [h]; decide
  have hdq2 : ('\"' : Char) ≠ d := Ne.symm hdq
  by_cases hq : needsQuote v
  · have hmid := scan_escQ d hdq v []
    simp [renderCell, hq, scanOk, hdq2, hmid]
  · simp only [renderCell, if_neg hq]
    apply scanOk_safe
    intro c hc
    have h4 := needsQuote_false_mem v (by simpa using hq) c hc
    refine ⟨?_, h4.2.1⟩
    rcases hd with h | h
    · rw [h]; simp [h4.1, h4.2.2.2]
    · rw [h]; simp [h4.2.2.2]

theorem scanOk_renderRowAux (r : List (List Char)) :
    scanOk '\n' false (renderRowAux r) = true := by
  induction r with
  | nil => simp [renderRowAux, scanOk]
  | cons v t ih =>
    cases t with
    | nil =>
      by_cases hv : v = []
      · subst hv
        decide
      · simp only [renderRowAux, if_neg hv]
        exact scanOk_renderCell '\n' (Or.inr rfl) v
    | cons w t2 =>
      simp only [renderRowAux]
      apply scanOk_append _ _ _ _ (scanOk_renderCell '\n' (Or.inr rfl) v)
      have hstep : scanOk '\n' false (',' :: renderRowAux (w :: t2)) =
          scanOk '\n' false (renderRowAux (w :: t2)) := by
        simp [scanOk]
      rw [hstep]
      exact ih

theorem scanOk_fields_renderCell (v : List Char) :
    scanOk ',' false (renderCell v) = true :=
  scanOk_renderCell ',' (Or.inl rfl) v

theorem mem_escQ (c : Char) (v : List Char) (h : c ∈ escQ v) : c ∈ v ∨ c = '\"' := by
  induction v with
  | nil => simp [escQ] at h
  | cons a t ih =>
    by_cases ha : a = '\"'
    · subst ha
      simp only [escQ, reduceIte, List.mem_cons] at h
      rcases h with h | h | h
      · exact Or.inr h
      · exact Or.inr h
      · rcases ih h with h2 | h2
        · exact Or.inl (List.mem_cons_of_mem _ h2)
        · exact Or.inr h2
    · simp only [escQ, if_neg ha, List.mem_cons] at h
      rcases h with h | h
      · exact Or.inl (by simp [h])
      · rcases ih h with h2 | h2
        · exact Or.inl (List.mem_cons_of_mem _ h2)
        · exact Or.inr h2

theorem noCR_renderCell (v : List Char) (h : '\r' ∉ v) : '\r' ∉ renderCell v := by
  by_cases hq : needsQuote v
  · simp only [renderCell, if_pos hq]
    intro hmem
    simp only [List.mem_cons, List.mem_append, List.mem_singleton] at hmem
    rcases hmem with h1 | h1 | h1
    · exact absurd h1 (by decide)
    · rcases mem_escQ _ _ h1 with h2 | h2
      · exact h h2
      · exact absurd h2 (by decide)
    · exact absurd h1 (by decide)
  · simpa [renderCell, if_neg hq] using h

theorem noCR_renderRowAux (r : List (List Char)) (h : ∀ v ∈ r, '\r' ∉ v) :
    '\r' ∉ renderRowAux r := by
  induction r with
  | nil => simp [renderRowAux]
  | cons v t ih =>
    cases t with
    | nil =>
      by_cases hv : v = []
      · subst hv
        decide
      · simp only [renderRowAux, if_neg hv]
        exact noCR_renderCell v (h v (List.mem_cons_self v []))
    | cons w t2 =>
      simp only [renderRowAux]
      intro hmem
      simp only [List.mem_append, List.mem_cons] at hmem
      rcases hmem with h1 | h1 | h1
      · exact noCR_renderCell v (h v (List.mem_cons_self v _)) h1
      · exact absurd h1 (by decide)
      · exact ih (fun x hx => h x (List.mem_cons_of_mem v hx)) h1

theorem univNL_skipCRLF (xs rest : List Char) (h : '\r' ∉ xs) :
    univNL (xs ++ '\r' :: '\n' :: rest) = xs ++ '\n' :: univNL rest := by
  induction xs with
  | nil => simp [univNL]
  | cons c t ih =>
    have hc : c ≠ '\r' := fun he => h (by simp [he])
    have ht : '\r' ∉ t := fun hm => h (List.mem_cons_of_mem c hm)
    cases t with
    | nil => simp [univNL, hc]
    | cons c2 t2 =>
      have ih2 := ih ht
      simp only [List.cons_append] at ih2 ⊢
      simp [univNL, hc, ih2]

theorem splitRecsAux_mid (xs : List Char) :
    ∀ (q : Bool) (cur rest : List Char), scanOk '\n' q xs = true →
      splitRecsAux cur q (xs ++ '\n' :: rest) =
        (cur.reverse ++ xs) :: splitRecsAux [] false rest := by
  induction xs with
  | nil =>
    intro q cur rest h
    have hq : q = false := by simpa [scanOk] using h
    subst hq
    simp [splitRecsAux]
  | cons c t ih =>
    intro q cur rest h
    unfold scanOk at h
    split at h
    · exact absurd h (by simp)
    · rename_i hcond
      have h1b : ¬(c = '\n' ∧ q = false) := fun hx => hcond ⟨Or.inl hx.1, hx.2⟩
      split at h
      · rename_i hquote
        subst hquote
        have ihh := ih (!q) ('\"' :: cur) rest h
        simp [splitRecsAux, h1b, ihh]
      · rename_i hquote
        have ihh := ih q (c :: cur) rest h
        simp [splitRecsAux, h1b, hquote, ihh]

theorem splitFieldsAux_mid (xs : List Char) :
    ∀ (q : Bool) (cur rest : List Char), scanOk ',' q xs = true →
      splitFieldsAux cur q (xs ++ ',' :: rest) =
        (cur.reverse ++ xs) :: splitFieldsAux [] false rest := by
  induction xs with
  | nil =>
    intro q cur rest h
    have hq : q = false := by simpa [scanOk] using h
    subst hq
    simp [splitFieldsAux]
  | cons c t ih =>
    intro q cur rest h
    unfold scanOk at h
    split at h
    · exact absurd h (by simp)
    · rename_i hcond
      have h1b : ¬(c = ',' ∧ q = false) := fun hx => hcond ⟨Or.inl hx.1, hx.2⟩
      split at h
      · rename_i hquote
        subst hquote
        have ihh := ih (!q) ('\"' :: cur) rest h
        simp [splitFieldsAux, h1b, ihh]
      · rename_i hquote
        have ihh := ih q (c :: cur) rest h
        simp [splitFieldsAux, h1b, hquote, ihh]

theorem splitFieldsAux_last (xs : List Char) :
    ∀ (q : Bool) (cur : List Char), scanOk ',' q xs = true →
      splitFieldsAux cur q xs = [cur.reverse ++ xs] := by
  induction xs with
  | nil =>
    intro q cur h
    simp [splitFieldsAux]
  | cons c t ih =>
    intro q cur h
    unfold scanOk at h
    split at h
    · exact absurd h (by simp)
    · rename_i hcond
      have h1b : ¬(c = ',' ∧ q = false) := fun hx => hcond ⟨Or.inl hx.1, hx.2⟩
      split at h
      · rename_i hquote
        subst hquote
        have ihh := ih (!q) ('\"' :: cur) h
        simp [splitFieldsAux, h1b, ihh]
      · rename_i hquote
        have ihh := ih q (c :: cur) h
        simp [splitFieldsAux, h1b, hquote, ihh]

theorem splitRecs_csvFile (rows : List (List (List Char)))
    (h : ∀ row ∈ rows, ∀ v ∈ row, '\r' ∉ v) :
    splitRecs (univNL (csvFile rows)) = rows.map renderRowAux := by
  induction rows with
  | nil => simp [csvFile, univNL, splitRecs, splitRecsAux]
  | cons row rest ih =>
    have hnoCR : '\r' ∉ renderRowAux row :=
      noCR_renderRowAux row (h row (List.mem_cons_self row rest))
    simp only [csvFile, List.map_cons]
    have hshape : renderRowAux row ++ '\r' :: '\n' :: csvFile rest =
        renderRowAux row ++ '\r' :: '\n' :: csvFile rest := rfl
    rw [univNL_skipCRLF _ _ hnoCR]
    unfold splitRecs
    rw [splitRecsAux_mid _ _ _ _ (scanOk_renderRowAux row)]
    simp only [List.reverse_nil, List.nil_append, List.cons.injEq, true_and]
    exact ih (fun x hx => h x (List.mem_cons_of_mem row hx))

theorem unescQ_cons_ne (c : Char) (r : List Char) (hc : c ≠ '\"') :
    unescQ (c :: r) = c :: unescQ r := by
  cases r with
  | nil => simp [unescQ, hc]
  | cons c2 r2 => simp [unescQ, hc]

theorem unescQ_escQ (v : List Char) : unescQ (escQ v ++ ['\"']) = v := by
  induction v with
  | nil => decide
  | cons c t ih =>
    by_cases hc : c = '\"'
    · subst hc
      simp [escQ, unescQ, ih]
    · simp only [escQ, if_neg hc, List.cons_append]
      rw [unescQ_cons_ne c _ hc, ih]

theorem unquote_renderCell (v : List Char) : unquoteCell (renderCell v) = v := by
  by_cases hq : needsQuote v
  · simp [renderCell, hq, unquoteCell, unescQ_escQ]
  · simp only [renderCell, if_neg hq]
    cases v with
    | nil => rfl
    | cons c r =>
      have hc : c ≠ '\"' :=
        (needsQuote_false_mem _ (by simpa using hq) c (by simp)).2.1
      simp [unquoteCell, hc]

theorem renderCell_ne_nil (v : List Char) (hv : v ≠ []) : renderCell v ≠ [] := by
  by_cases hq : needsQuote v
  · simp [renderCell, hq]
  · simpa [renderCell, hq] using hv

theorem renderRowAux_ne_nil (r : List (List Char)) (hr : r ≠ []) :
    renderRowAux r ≠ [] := by
  cases r with
  | nil => contradiction
  | cons v t =>
    cases t with
    | nil =>
      by_cases hv : v = []
      · subst hv; decide
      · simp only [renderRowAux, if_neg hv]
        exact renderCell_ne_nil v hv
    | cons w t2 => simp [renderRowAux]

theorem parseLine_renderRow (r : List (List Char)) (hr : r ≠ []) :
    parseLine (renderRowAux r) = r := by
  induction r with
  | nil => contradiction
  | cons v t ih =>
    cases t with
    | nil =>
      by_cases hv : v = []
      · subst hv; decide
      · have hne := renderCell_ne_nil v hv
        simp only [renderRowAux, if_neg hv, parseLine, if_neg hne]
        rw [splitFieldsAux_last _ _ _ (scanOk_fields_renderCell v)]
        simp [unquote_renderCell]
    | cons w t2 =>
      have hne : renderCell v ++ ',' :: renderRowAux (w :: t2) ≠ [] := by simp
      simp only [renderRowAux, parseLine, if_neg hne]
      rw [splitFieldsAux_mid _ _ _ _ (scanOk_fields_renderCell v)]
      simp only [List.reverse_nil, List.nil_append, List.map_cons]
      rw [unquote_renderCell]
      have hnz := renderRowAux_ne_nil (w :: t2) (by simp)
      have hz := ih (by simp)
      simp only [parseLine, if_neg hnz] at hz
      rw [hz]

theorem readRows_csvFile (rows : List (List (List Char)))
    (hnoCR : ∀ row ∈ rows, ∀ v ∈ row, '\r' ∉ v)
    (hner : ∀ row ∈ rows, row ≠ []) :
    readRows (univNL (csvFile rows)) = rows := by
  unfold readRows
  rw [splitRecs_csvFile rows hnoCR, List.map_map]
  conv_rhs => rw [← List.map_id rows]
  apply List.map_congr_left
  intro a ha
  simp [Function.comp, parseLine_renderRow a (hner a ha)]

theorem getVal_cons_self (kv : List Char × List Char) (r : Rec) :
    getVal (kv :: r) kv.1 = kv.2 := by
  simp [getVal, List.find?_cons]

theorem getVal_cons_ne (kv : List Char × List Char) (r : Rec) (k : List Char)
    (hk : k ≠ kv.1) : getVal (kv :: r) k = getVal r k := by
  have hk2 : kv.1 ≠ k := Ne.symm hk
  simp [getVal, List.find?_cons, hk2]

theorem map_getVal (r : Rec) (hnd : (r.map Prod.fst).Nodup) :
    (r.map Prod.fst).map (getVal r) = r.map Prod.snd := by
  induction r with
  | nil => simp
  | cons kv t ih =>
    have hnd2 : (t.map Prod.fst).Nodup := (List.nodup_cons.mp (by simpa using hnd)).2
    have hhead : kv.1 ∉ t.map Prod.fst := (List.nodup_cons.mp (by simpa using hnd)).1
    simp only [List.map_cons]
    congr 1
    · exact getVal_cons_self kv t
    · have hcongr : ∀ k ∈ t.map Prod.fst, getVal (kv :: t) k = getVal t k :=
        fun k hk => getVal_cons_ne kv t k (fun he => hhead (he ▸ hk))
      rw [List.map_congr_left hcongr, ih hnd2]

theorem zip_fst_snd (r : Rec) : (r.map Prod.fst).zip (r.map Prod.snd) = r := by
  induction r with
  | nil => rfl
  | cons kv t ih => simp [ih]

/-- C5 amended: writing a non-empty list of uniform records (same
distinct keys in the same order, at least one column) with write_to_csv
and reading the file back through the text-mode universal-newline
translation and the DictReader model restores the records exactly,
provided no key or value contains a carriage return. -/
theorem c5_roundtrip_amended (d0 : Rec) (ds : List Rec)
    (huni : ∀ r ∈ d0 :: ds, r.map Prod.fst = d0.map Prod.fst)
    (hnd : (d0.map Prod.fst).Nodup)
    (hne : d0 ≠ [])
    (hnoCR : ∀ r ∈ d0 :: ds, ∀ kv ∈ r, '\r' ∉ kv.1 ∧ '\r' ∉ kv.2)
    (content : List Char)
    (hw : write_to_csv (d0 :: ds) = some content) :
    readCsvDicts (univNL content) = d0 :: ds := by
  have hrows : (d0 :: ds).map (fun r => (d0.map Prod.fst).map (getVal r)) =
      (d0 :: ds).map (fun r => r.map Prod.snd) := by
    apply List.map_congr_left
    intro r hr
    rw [← huni r hr]
    exact map_getVal r (by rw [huni r hr]; exact hnd)
  have hc2 : content =
      csvFile ((d0.map Prod.fst) :: (d0 :: ds).map (fun r => r.map Prod.snd)) := by
    have h1 := write_to_csv_cons d0 ds
    rw [hw, hrows] at h1
    exact Option.some.inj h1
  have hnoCR2 : ∀ row ∈ (d0.map Prod.fst) :: (d0 :: ds).map (fun r => r.map Prod.snd),
      ∀ v ∈ row, '\r' ∉ v := by
    intro row hrow v hv
    rcases List.mem_cons.mp hrow with h | h
    · subst h
      obtain ⟨kv, hkv, rfl⟩ := List.mem_map.mp hv
      exact (hnoCR d0 (List.mem_cons_self d0 ds) kv hkv).1
    · obtain ⟨r, hr, rfl⟩ := List.mem_map.mp h
      obtain ⟨kv, hkv, rfl⟩ := List.mem_map.mp hv
      exact (hnoCR r hr kv hkv).2
  have hner : ∀ row ∈ (d0.map Prod.fst) :: (d0 :: ds).map (fun r => r.map Prod.snd),
      row ≠ [] := by
    intro row hrow
    rcases List.mem_cons.mp hrow with h | h
    · subst h
      simpa using hne
    · obtain ⟨r, hr, rfl⟩ := List.mem_map.mp h
      have : r ≠ [] := by
        intro hcon
        apply hne
        have := huni r hr
        rw [hcon] at this
        simpa using this.symm
      simpa using this
  rw [hc2]
  unfold readCsvDicts
  rw [readRows_csvFile _ hnoCR2 hner]
  simp only []
  have hfilter : ((d0 :: ds).map (fun r => r.map Prod.snd)).filter
      (fun r => !r.isEmpty) = (d0 :: ds).map (fun r => r.map Prod.snd) := by
    apply List.filter_eq_self.mpr
    intro a ha
    have := hner a (List.mem_cons_of_mem _ ha)
    simpa [List.isEmpty_iff] using this
  rw [hfilter, List.map_map]
  conv_rhs => rw [← List.map_id (d0 :: ds)]
  apply List.map_congr_left
  intro r hr
  have hz : (d0.map Prod.fst).zip (r.map Prod.snd) = r := by
    rw [← huni r hr]
    exact zip_fst_snd r
  simpa [Function.comp] using hz

/-- Counterexample to C5 as stated: a value containing a carriage
return is written quoted, but the read in
generate_workflows_with_channels reopens the file in plain text mode,
whose universal-newline translation turns the CR inside the quoted
field into LF, so the value reads back changed. -/
theorem c5_roundtrip_cr_counterexample :
    write_to_csv [[("k".data, "a\rb".data)]] = some ("k\r\n\"a\rb\"\r\n".data) ∧
    readCsvDicts (univNL ("k\r\n\"a\rb\"\r\n".data)) = [[("k".data, "a\nb".data)]] ∧
    ("a\nb".data ≠ "a\rb".data) := by
  refine ⟨by decide, by decide, by decide⟩

/-- Witness for C5 amended: two records with two columns whose values
contain an embedded comma, an embedded quote, an embedded newline and
an empty string all round-trip unchanged. -/
theorem c5_roundtrip_amended_witness :
    readCsvDicts (univNL ("a,b\r\n\"1,2\",\"x\"\"y\"\r\n,\"l1\nl2\"\r\n".data)) =
      [[("a".data, "1,2".data), ("b".data, "x\"y".data)],
       [("a".data, "".data), ("b".data, "l1\nl2".data)]] := by
  exact c5_roundtrip_amended
    [("a".data, "1,2".data), ("b".data, "x\"y".data)]
    [[("a".data, "".data), ("b".data, "l1\nl2".data)]]
    (by decide) (by decide) (by decide) (by decide)
    ("a,b\r\n\"1,2\",\"x\"\"y\"\r\n,\"l1\nl2\"\r\n".data) (by decide)

end NRScript
